import Mathlib

/-!
Shallow embedding of src/scripts/build.py, a build-runner script.

The script resolves a working directory (ascending one level when the
current directory is named "scripts"), invokes the fixed command
`pnpm build` once as a child process with captured streams, relays the
captured standard output and (when non-empty) the labeled standard error,
and terminates with the propagated exit code (0 on success, the childs
code on build failure, 1 when the child could not be spawned).

Paths are modelled as lists of path segments; the process entry point is
a pure function from the starting directory, the command-line arguments
and the behavior of the single child invocation to a record of the
resolved working directory, the spawn requests issued, the lines printed
on each stream, and the final exit code.
-/

/-- Output channel of a printed line: the runner writes either to its
standard output or to its standard error stream. -/
inductive Chan where
  | out
  | err
deriving DecidableEq, BEq, Repr

/-- One line of runner output: the channel it goes to and its text. -/
structure Line where
  chan : Chan
  text : String
deriving DecidableEq, BEq, Repr

/-- Behavior of the single child invocation: either the process spawned and
completed with a return code and captured streams, or spawning raised an
exception carrying a message. -/
inductive ChildResult where
  | spawned (returncode : Int) (stdout stderr : String)
  | spawnFailure (msg : String)
deriving DecidableEq, Repr

/-- Everything one run of the script produces: the resolved working
directory, the list of spawn requests (command and working directory of
each child process the runner starts), the printed lines in order, and the
exit code of the runner process. -/
structure RunOutcome where
  workDir : List String
  spawns : List (List String × List String)
  output : List Line
  exitCode : Int
deriving DecidableEq, Repr

/-- The fixed build command of the script: `build_cmd = ['pnpm', 'build']`. -/
def build_cmd : List String := ["pnpm", "build"]

/-- `os.path.basename` on a segment-list path: the last segment, or the
empty string for the root. -/
def basename (p : List String) : String := (p.getLast?).getD ""

/-- `os.chdir('..')`: move to the parent directory (drop the last segment;
the root is its own parent). -/
def chdirUp (p : List String) : List String := p.dropLast

/-- Render a segment-list path the way the script prints it. -/
def pathText (p : List String) : String := "/" ++ String.intercalate "/" p

/-- The working-directory resolution at the top of the script:
`if os.path.basename(current_dir) == 'scripts': os.chdir('..')`. -/
def resolveWorkDir (cwd : List String) : List String :=
  if basename cwd = "scripts" then chdirUp cwd else cwd

/-- The module body of src/scripts/build.py as a pure function of the
starting directory and the behavior of the single `subprocess.run` call. -/
def runBuild (cwd : List String) (child : ChildResult) : RunOutcome :=
  let wd := resolveWorkDir cwd
  let header : List Line :=
    [ ⟨Chan.out, "[v0] Current working directory: " ++ pathText cwd⟩
    , ⟨Chan.out, "[v0] Working directory: " ++ pathText wd⟩
    , ⟨Chan.out, "[v0] Starting TypeScript build process..."⟩
    , ⟨Chan.out, "[v0] Running: " ++ String.intercalate " " build_cmd⟩ ]
  match child with
  | ChildResult.spawned rc out err =>
      let relay : List Line :=
        [⟨Chan.out, out⟩]
          ++ (if err = "" then [] else [⟨Chan.err, "STDERR: " ++ err⟩])
      if rc ≠ 0 then
        ⟨wd, [(build_cmd, wd)],
          header ++ relay
            ++ [⟨Chan.out, "[v0] Build failed with return code: " ++ toString rc⟩],
          rc⟩
      else
        ⟨wd, [(build_cmd, wd)],
          header ++ relay ++ [⟨Chan.out, "[v0] Build completed successfully!"⟩],
          0⟩
  | ChildResult.spawnFailure msg =>
      ⟨wd, [(build_cmd, wd)],
        header ++ [⟨Chan.err, "[v0] Error running build: " ++ msg⟩],
        1⟩

/-- The script as a process entry point: it receives the command-line
arguments but its body never reads them (no use of `sys.argv`). -/
def runBuildMain (argv : List String) (cwd : List String) (child : ChildResult) :
    RunOutcome :=
  runBuild cwd child

/-- The lines a run writes to the error stream. -/
def errLines (o : RunOutcome) : List Line :=
  o.output.filter fun l => l.chan == Chan.err

/-- Modelled from the spec: the fixed, hardcoded absolute path that the
second duplicated copy of the build script (not present under src/)
switches to. The spec fixes only that the path is a constant. -/
def hardcodedRoot : List String := ["home", "user", "neoagent"]

/-- Modelled from the spec: the working-directory resolution of the second
duplicated copy of the build script, which per the spec unconditionally
switches to a fixed, hardcoded absolute path. -/
def variantBWorkDir (_cwd : List String) : List String := hardcodedRoot

/-- C1: when the child build process starts and exits with a code other
than 0, the runner prints a diagnostic naming that code and terminates
with exactly that exit code. -/
theorem c1_nonzero_exit_propagated (cwd : List String) (rc : Int)
    (out err : String) (h : rc ≠ 0) :
    Line.mk Chan.out ("[v0] Build failed with return code: " ++ toString rc)
        ∈ (runBuild cwd (ChildResult.spawned rc out err)).output
      ∧ (runBuild cwd (ChildResult.spawned rc out err)).exitCode = rc := by
  unfold runBuild
  simp [h]

/-- Witness for C1 at a concrete run with exit code 2. -/
theorem c1_witness :
    Line.mk Chan.out ("[v0] Build failed with return code: " ++ toString (2 : Int))
        ∈ (runBuild ["app"] (ChildResult.spawned 2 "o" "e")).output
      ∧ (runBuild ["app"] (ChildResult.spawned 2 "o" "e")).exitCode = 2 :=
  c1_nonzero_exit_propagated ["app"] 2 "o" "e" (by decide)

/-- C2: when the child build process starts and exits with code 0, the
runner prints the captured standard output of the child, prints the
success diagnostic, and terminates with exit code 0. -/
theorem c2_success_relays_and_exits_zero (cwd : List String) (out err : String) :
    Line.mk Chan.out out ∈ (runBuild cwd (ChildResult.spawned 0 out err)).output
      ∧ Line.mk Chan.out "[v0] Build completed successfully!"
          ∈ (runBuild cwd (ChildResult.spawned 0 out err)).output
      ∧ (runBuild cwd (ChildResult.spawned 0 out err)).exitCode = 0 := by
  unfold runBuild
  simp

/-- C3: when the child process cannot be spawned, the runner prints a
diagnostic carrying the invocation-error message on its error stream and
terminates with exit code 1. -/
theorem c3_spawn_failure_exits_one (cwd : List String) (msg : String) :
    Line.mk Chan.err ("[v0] Error running build: " ++ msg)
        ∈ (runBuild cwd (ChildResult.spawnFailure msg)).output
      ∧ (runBuild cwd (ChildResult.spawnFailure msg)).exitCode = 1 := by
  unfold runBuild
  simp

/-- Boolean comparison of the two channels evaluates to false. -/
theorem chanBeqOutErr : (Chan.out == Chan.err) = false := rfl

/-- Boolean comparison of the error channel with itself evaluates to true. -/
theorem chanBeqErrErr : (Chan.err == Chan.err) = true := rfl

/-- C4: when the child completes, the lines the runner writes to its error
stream are exactly one line labeled STDERR carrying the captured standard
error when that capture is non-empty, and no line at all when it is
empty. -/
theorem c4_stderr_labeled_relay (cwd : List String) (rc : Int) (out err : String) :
    errLines (runBuild cwd (ChildResult.spawned rc out err))
      = if err = "" then [] else [Line.mk Chan.err ("STDERR: " ++ err)] := by
  unfold errLines runBuild
  by_cases herr : err = "" <;> by_cases hrc : rc ≠ 0 <;>
    simp [herr, hrc, List.filter_append, List.filter_cons, chanBeqOutErr,
      chanBeqErrErr]

/-- C5: a starting directory whose last segment is "scripts" resolves to
its parent directory; any other starting directory resolves to itself
unchanged. -/
theorem c5_workdir_resolution :
    (∀ cwd : List String,
        cwd.getLast? = some "scripts" → resolveWorkDir cwd = cwd.dropLast)
      ∧ ∀ cwd : List String,
          cwd.getLast? ≠ some "scripts" → resolveWorkDir cwd = cwd := by
  constructor
  · intro cwd h
    unfold resolveWorkDir basename chdirUp
    simp [h]
  · intro cwd h
    unfold resolveWorkDir basename chdirUp
    cases hl : cwd.getLast? with
    | none => simp
    | some s =>
        rw [hl] at h
        simp only [Option.getD_some]
        rw [if_neg]
        intro hs
        exact h (by rw [hs])

/-- Witness for C5 at two concrete starting directories. -/
theorem c5_witness :
    resolveWorkDir ["repo", "scripts"] = ["repo"]
      ∧ resolveWorkDir ["repo", "app"] = ["repo", "app"] := by
  constructor
  · simpa using c5_workdir_resolution.1 ["repo", "scripts"] (by decide)
  · exact c5_workdir_resolution.2 ["repo", "app"] (by decide)

/-- C6: two runs from the same starting directory whose child invocations
behave identically (same return code, same captured streams) terminate
with the same runner exit code. -/
theorem c6_deterministic_reruns (cwd : List String) (rc₁ rc₂ : Int)
    (out₁ out₂ err₁ err₂ : String) (hrc : rc₁ = rc₂) (hout : out₁ = out₂)
    (herr : err₁ = err₂) :
    (runBuild cwd (ChildResult.spawned rc₁ out₁ err₁)).exitCode
      = (runBuild cwd (ChildResult.spawned rc₂ out₂ err₂)).exitCode := by
  subst hrc hout herr
  rfl

/-- Witness for C6 at a concrete pair of identical runs. -/
theorem c6_witness :
    (runBuild ["p"] (ChildResult.spawned 0 "a" "")).exitCode
      = (runBuild ["p"] (ChildResult.spawned 0 "a" "")).exitCode :=
  c6_deterministic_reruns ["p"] 0 0 "a" "a" "" "" rfl rfl rfl

/-- C7: every run issues exactly one spawn request, for the fixed build
command at the resolved working directory, whatever the outcome of the
child invocation; no branch issues a second one. -/
theorem c7_exactly_one_spawn (cwd : List String) (child : ChildResult) :
    (runBuild cwd child).spawns = [(build_cmd, resolveWorkDir cwd)] := by
  unfold runBuild
  cases child with
  | spawned rc out err => dsimp only; split <;> rfl
  | spawnFailure msg => rfl

/-- C8: the behavior of the entry point does not depend on the
command-line arguments: two invocations differing only in the argument
list produce identical outcomes. -/
theorem c8_arguments_ignored (argv₁ argv₂ cwd : List String)
    (child : ChildResult) :
    runBuildMain argv₁ cwd child = runBuildMain argv₂ cwd child := rfl

/-- C9: the two duplicated copies of the build script diverge on working
directory resolution: the copy under src/ ascends one level exactly when
the current directory is named "scripts", while the other copy (modelled
from the spec) always yields the fixed hardcoded path, and the two
policies disagree on a concrete directory. -/
theorem c9_divergent_copies :
    (∀ cwd : List String,
        cwd.getLast? = some "scripts" → resolveWorkDir cwd = cwd.dropLast)
      ∧ (∀ cwd : List String, variantBWorkDir cwd = hardcodedRoot)
      ∧ ∃ cwd : List String, resolveWorkDir cwd ≠ variantBWorkDir cwd := by
  refine ⟨?_, fun _ => rfl, ⟨[], by decide⟩⟩
  intro cwd h
  unfold resolveWorkDir basename chdirUp
  simp [h]

/-- Witness for C9 at a concrete starting directory named "scripts". -/
theorem c9_witness :
    resolveWorkDir ["x", "scripts"] = ["x"]
      ∧ variantBWorkDir ["x"] = hardcodedRoot := by
  constructor
  · simpa using c9_divergent_copies.1 ["x", "scripts"] (by decide)
  · exact c9_divergent_copies.2.1 ["x"]

/-- C10: a non-zero child exit code does not suppress the relay of the
captured streams: the runner still prints the captured standard output,
still prints the labeled standard error when it is non-empty, and then
terminates with the child exit code. -/
theorem c10_failure_still_relays (cwd : List String) (rc : Int)
    (out err : String) (hrc : rc ≠ 0) :
    Line.mk Chan.out out ∈ (runBuild cwd (ChildResult.spawned rc out err)).output
      ∧ (err ≠ "" →
          Line.mk Chan.err ("STDERR: " ++ err)
            ∈ (runBuild cwd (ChildResult.spawned rc out err)).output)
      ∧ (runBuild cwd (ChildResult.spawned rc out err)).exitCode = rc := by
  unfold runBuild
  refine ⟨by simp [hrc], fun herr => by simp [hrc, herr], by simp [hrc]⟩

/-- Witness for C10 at a concrete failing run with non-empty standard
error. -/
theorem c10_witness :
    Line.mk Chan.out "o" ∈ (runBuild ["p"] (ChildResult.spawned 2 "o" "e")).output
      ∧ Line.mk Chan.err ("STDERR: " ++ "e")
          ∈ (runBuild ["p"] (ChildResult.spawned 2 "o" "e")).output
      ∧ (runBuild ["p"] (ChildResult.spawned 2 "o" "e")).exitCode = 2 := by
  have h := c10_failure_still_relays ["p"] 2 "o" "e" (by decide)
  exact ⟨h.1, h.2.1 (by decide), h.2.2⟩
